import Mathlib

/-!
Verification of the FoldingNet training harness (trainer.py).

The harness is a sequential epoch driver over injected collaborators
(model, optimizer, scheduler, data loaders).  The embedding below models
the driver loop of Trainer.train as a state machine over an explicit
TrainState, and Trainer.evaluate as a pure function returning the
observable outcome of one invocation (returned loss, batches used,
gradient-tracking mode of each model invocation, image files written).
Losses and times are modelled as rationals; batches as abstract ids.
-/

namespace FoldingNet

/-- Mean as numpy computes it on a nonempty list: sum divided by length
(trainer.py lines 100 and 135).  On the empty list numpy yields NaN; the
claims are settled on nonempty loaders. -/
def npMean (l : List ℚ) : ℚ := l.sum / l.length

/-- Constructor-supplied configuration of the Trainer (trainer.py lines
12-33).  Fields irrelevant to the claims (dataset name and paths, gpu
flag, verbosity, tensorboard directory, pretrain path) are omitted.  The
writer is a freshly constructed SummaryWriter and hence truthy, so the
guard on line 67 always takes the logging branch. -/
structure Config where
  epoch : ℕ
  num_points : ℕ
  scheduler_interval : ℕ
  snapshot_interval : ℕ
  result_dir : String

/-- The externally injected collaborators of the train loop, abstracted
as the values the framework calls return: the mean train loss that
train_epoch records at zero-based epoch e (line 100), the elapsed
per-epoch time it records (line 99), the total elapsed time (line 73),
and the loss the evaluate call returns when invoked with one-based tag t
(line 56). -/
structure Collab where
  trainLoss : ℕ → ℚ
  epochTime : ℕ → ℚ
  totalTime : ℚ
  evalLoss : ℕ → ℚ

/-- The state of Trainer.train: the train_hist lists (lines 42-46),
best_loss (line 47), the res variable assigned on line 56 (none models
the Python name being unbound), and the observable calls made so far:
evaluate invocations by one-based tag, snapshot calls for the best tag
(recorded by zero-based epoch) and for one-based epoch tags,
scheduler.step calls by zero-based epoch, and the value read from res
by the Test Loss log on line 70, once per epoch. -/
structure TrainState where
  best_loss : ℚ
  res : Option ℚ
  loss_hist : List ℚ
  per_epoch_time : List ℚ
  total_time : List ℚ
  eval_calls : List ℕ
  best_snapshots : List ℕ
  scheduler_steps : List ℕ
  epoch_snapshots : List ℕ
  test_loss_logs : List (Option ℚ)

/-- State at the top of Trainer.train, lines 42-47. -/
def initState : TrainState :=
  { best_loss := 1000000000
    res := none
    loss_hist := []
    per_epoch_time := []
    total_time := []
    eval_calls := []
    best_snapshots := []
    scheduler_steps := []
    epoch_snapshots := []
    test_loss_logs := [] }

/-- Guard of line 55: evaluation runs when (epoch+1) mod 10 = 0 or
epoch = 0 (zero-based epoch). -/
def evalCond (epoch : ℕ) : Bool := (epoch + 1) % 10 == 0 || epoch == 0

/-- One iteration of the loop body, trainer.py lines 52-70, at zero-based
index epoch.  train_epoch (line 53) appends the per-epoch time and the
mean loss (lines 99-100); the evaluation block (lines 55-59) binds res,
compares against best_loss and snapshots on improvement; the scheduler
steps when epoch mod scheduler_interval = 0 (line 61); an epoch-tagged
snapshot is written when (epoch+1) mod snapshot_interval = 0 (line 64);
finally line 70 reads res to log the Test Loss scalar. -/
def trainStep (cfg : Config) (col : Collab) (epoch : ℕ) (s : TrainState) : TrainState :=
  let s1 : TrainState :=
    { s with per_epoch_time := s.per_epoch_time ++ [col.epochTime epoch]
             loss_hist := s.loss_hist ++ [col.trainLoss epoch] }
  let s2 : TrainState :=
    if evalCond epoch then
      let l := col.evalLoss (epoch + 1)
      let t : TrainState := { s1 with res := some l, eval_calls := s1.eval_calls ++ [epoch + 1] }
      if l < t.best_loss then
        { t with best_loss := l, best_snapshots := t.best_snapshots ++ [epoch] }
      else t
    else s1
  let s3 : TrainState :=
    if epoch % cfg.scheduler_interval == 0 then
      { s2 with scheduler_steps := s2.scheduler_steps ++ [epoch] }
    else s2
  let s4 : TrainState :=
    if (epoch + 1) % cfg.snapshot_interval == 0 then
      { s3 with epoch_snapshots := s3.epoch_snapshots ++ [epoch + 1] }
    else s3
  { s4 with test_loss_logs := s4.test_loss_logs ++ [s4.res] }

/-- The first n iterations of the loop on line 52, in order. -/
def runEpochs (cfg : Config) (col : Collab) : ℕ → TrainState
  | 0 => initState
  | n + 1 => trainStep cfg col n (runEpochs cfg col n)

/-- Trainer.train, lines 41-76: run every epoch, then append the total
elapsed time (line 73). -/
def trainRun (cfg : Config) (col : Collab) : TrainState :=
  let s := runEpochs cfg col cfg.epoch
  { s with total_time := s.total_time ++ [col.totalTime] }

/-- A point-cloud sample: its number of points and the coordinate
dimensionality.  Dataset entries are (pts, label) pairs with the label
unused. -/
structure Sample where
  pts : ℕ
  dim : ℕ

/-- Number of tensor elements of a sample. -/
def numel (s : Sample) : ℕ := s.pts * s.dim

/-- The two data providers as evaluate sees them: the batch sequences
the train and test loaders yield (batches as abstract ids), and the
first dataset element of each loader (lines 106, 114 and 124). -/
structure DataEnv where
  trainBatches : List ℕ
  testBatches : List ℕ
  trainSample0 : Sample
  testSample0 : Sample

/-- The injected model, abstracted as the loss it yields on a batch. -/
structure ModelEnv where
  batchLoss : ℕ → ℚ

/-- Observable outcome of one evaluate invocation: the returned res loss
(none when the call raises before returning, i.e. a view fails), the
batches the loss was accumulated over, the gradient-tracking mode in
effect at each model invocation in order, and the image files written
in order. -/
structure EvalResult where
  result : Option ℚ
  lossBatches : List ℕ
  gradModes : List Bool
  files : List String

/-- Trainer.evaluate, lines 103-137.  gradMode is the ambient PyTorch
gradient-tracking mode at the call site; evaluate contains no no_grad
context, so every model invocation runs in that ambient mode (model.eval
on line 104 only switches layer behavior such as dropout, not gradient
tracking; losses are detached only after computation).  The loss loop on
lines 106-111 iterates self.train_loader.  pts.view(1, 2048, 3) on lines
117 and 127 requires the sample to hold exactly 1*2048*3 elements and
raises otherwise; files saved before such a raise remain written.  File
paths are built by string concatenation onto result_dir (lines 120, 122,
130, 131), and test_0.png is additionally saved when the one-based epoch
tag equals 10 (line 121). -/
def evaluate (cfg : Config) (env : DataEnv) (m : ModelEnv) (gradMode : Bool)
    (epoch : ℕ) : EvalResult :=
  let lossBuf := env.trainBatches.map m.batchLoss
  let fwds := env.trainBatches.map (fun _ => gradMode)
  if numel env.testSample0 = 1 * 2048 * 3 then
    let files1 := [cfg.result_dir ++ "test_" ++ toString epoch ++ ".png"]
      ++ (if epoch = 10 then [cfg.result_dir ++ "test_0.png"] else [])
    if numel env.trainSample0 = 1 * 2048 * 3 then
      { result := some (npMean lossBuf)
        lossBatches := env.trainBatches
        gradModes := fwds ++ [gradMode, gradMode]
        files := files1 ++ [cfg.result_dir ++ "train_" ++ toString epoch ++ ".png",
                            cfg.result_dir ++ "train_" ++ toString epoch ++ "_origin.png"] }
    else
      { result := none
        lossBatches := env.trainBatches
        gradModes := fwds ++ [gradMode]
        files := files1 }
  else
    { result := none
      lossBatches := env.trainBatches
      gradModes := fwds
      files := [] }

/-- Closed form of best_loss after the first n epochs: the minimum of
the sentinel 1000000000 and every evaluation loss seen in epochs
strictly before n. -/
def bestBefore (col : Collab) (n : ℕ) : ℚ :=
  (((List.range n).filter evalCond).map (fun e => col.evalLoss (e + 1))).foldl min 1000000000

/-- Concrete two-epoch configuration used to exercise the claims on
explicit inputs. -/
def cfgT : Config :=
  { epoch := 2, num_points := 2048, scheduler_interval := 1, snapshot_interval := 1,
    result_dir := "results/" }
/-- Concrete collaborators with constant unit losses and times and a
constant evaluation loss of 7. -/
def colT : Collab :=
  { trainLoss := fun _ => 1, epochTime := fun _ => 1, totalTime := 2, evalLoss := fun _ => 7 }
/-- Concrete ten-epoch configuration, long enough for the epoch tag to
reach 10. -/
def cfgB : Config :=
  { epoch := 10, num_points := 2048, scheduler_interval := 1, snapshot_interval := 1,
    result_dir := "results/" }
/-- Concrete one-epoch configuration. -/
def cfgC : Config :=
  { epoch := 1, num_points := 2048, scheduler_interval := 1, snapshot_interval := 1,
    result_dir := "results/" }
/-- Concrete collaborators whose evaluation loss equals the initial
best_loss sentinel 1000000000 of trainer.py line 47. -/
def colC : Collab :=
  { trainLoss := fun _ => 1, epochTime := fun _ => 1, totalTime := 1,
    evalLoss := fun _ => 1000000000 }
/-- Concrete data providers: one train batch (id 0), one test batch
(id 1), first samples of 2048 three-dimensional points each. -/
def envW : DataEnv :=
  { trainBatches := [0], testBatches := [1],
    trainSample0 := { pts := 2048, dim := 3 }, testSample0 := { pts := 2048, dim := 3 } }
/-- Concrete model yielding loss 2 on the train batch and 5 on the test
batch. -/
def mW : ModelEnv := { batchLoss := fun b => if b = 0 then 2 else 5 }




/-- Normal form of one loop iteration: every field of the next state,
with the branch conditions made explicit. -/
lemma trainStep_eq (cfg : Config) (col : Collab) (epoch : ℕ) (s : TrainState) :
    trainStep cfg col epoch s =
      { best_loss := if evalCond epoch ∧ col.evalLoss (epoch + 1) < s.best_loss
                     then col.evalLoss (epoch + 1) else s.best_loss
        res := if evalCond epoch then some (col.evalLoss (epoch + 1)) else s.res
        loss_hist := s.loss_hist ++ [col.trainLoss epoch]
        per_epoch_time := s.per_epoch_time ++ [col.epochTime epoch]
        total_time := s.total_time
        eval_calls := s.eval_calls ++ if evalCond epoch then [epoch + 1] else []
        best_snapshots := s.best_snapshots ++
          if evalCond epoch ∧ col.evalLoss (epoch + 1) < s.best_loss then [epoch] else []
        scheduler_steps := s.scheduler_steps ++
          if epoch % cfg.scheduler_interval == 0 then [epoch] else []
        epoch_snapshots := s.epoch_snapshots ++
          if (epoch + 1) % cfg.snapshot_interval == 0 then [epoch + 1] else []
        test_loss_logs := s.test_loss_logs ++
          [if evalCond epoch then some (col.evalLoss (epoch + 1)) else s.res] } := by
  simp only [trainStep]
  split_ifs <;> simp_all


lemma runEpochs_succ (cfg : Config) (col : Collab) (n : ℕ) :
    runEpochs cfg col (n + 1) = trainStep cfg col n (runEpochs cfg col n) := rfl

lemma bestBefore_zero (col : Collab) : bestBefore col 0 = 1000000000 := rfl

lemma bestBefore_succ (col : Collab) (n : ℕ) :
    bestBefore col (n + 1) =
      if evalCond n then min (bestBefore col n) (col.evalLoss (n + 1)) else bestBefore col n := by
  unfold bestBefore
  rw [List.range_succ, List.filter_append]
  by_cases h : evalCond n
  · simp [h, List.foldl_append]
  · simp [h]

lemma runEpochs_total_time (cfg : Config) (col : Collab) (n : ℕ) :
    (runEpochs cfg col n).total_time = [] := by
  induction n with
  | zero => rfl
  | succ n ih => rw [runEpochs_succ, trainStep_eq]; exact ih

lemma runEpochs_loss_hist (cfg : Config) (col : Collab) (n : ℕ) :
    (runEpochs cfg col n).loss_hist = (List.range n).map col.trainLoss := by
  induction n with
  | zero => rfl
  | succ n ih => rw [runEpochs_succ, trainStep_eq, List.range_succ]; simp [ih]

lemma runEpochs_per_epoch_time (cfg : Config) (col : Collab) (n : ℕ) :
    (runEpochs cfg col n).per_epoch_time = (List.range n).map col.epochTime := by
  induction n with
  | zero => rfl
  | succ n ih => rw [runEpochs_succ, trainStep_eq, List.range_succ]; simp [ih]

lemma runEpochs_eval_calls (cfg : Config) (col : Collab) (n : ℕ) :
    (runEpochs cfg col n).eval_calls =
      ((List.range n).filter evalCond).map (fun e => e + 1) := by
  induction n with
  | zero => rfl
  | succ n ih =>
    rw [runEpochs_succ, trainStep_eq, List.range_succ, List.filter_append]
    by_cases h : evalCond n <;> simp [h, ih]

lemma runEpochs_scheduler_steps (cfg : Config) (col : Collab) (n : ℕ) :
    (runEpochs cfg col n).scheduler_steps =
      (List.range n).filter (fun e => e % cfg.scheduler_interval == 0) := by
  induction n with
  | zero => rfl
  | succ n ih =>
    rw [runEpochs_succ, trainStep_eq, List.range_succ, List.filter_append]
    by_cases h : n % cfg.scheduler_interval == 0 <;> simp [h, ih]

lemma runEpochs_epoch_snapshots (cfg : Config) (col : Collab) (n : ℕ) :
    (runEpochs cfg col n).epoch_snapshots =
      ((List.range n).filter (fun e => (e + 1) % cfg.snapshot_interval == 0)).map
        (fun e => e + 1) := by
  induction n with
  | zero => rfl
  | succ n ih =>
    rw [runEpochs_succ, trainStep_eq, List.range_succ, List.filter_append]
    by_cases h : (n + 1) % cfg.snapshot_interval == 0 <;> simp [h, ih]

lemma runEpochs_best_loss (cfg : Config) (col : Collab) (n : ℕ) :
    (runEpochs cfg col n).best_loss = bestBefore col n := by
  induction n with
  | zero => rfl
  | succ n ih =>
    rw [runEpochs_succ, trainStep_eq]
    dsimp only
    rw [bestBefore_succ, ih]
    by_cases h : evalCond n
    · by_cases hl : col.evalLoss (n + 1) < bestBefore col n
      · rw [if_pos ⟨h, hl⟩, if_pos h, min_eq_right hl.le]
      · rw [if_neg (by simp [h, hl]), if_pos h, min_eq_left (not_lt.mp hl)]
    · rw [if_neg (by simp [h]), if_neg h]

lemma runEpochs_best_snapshots (cfg : Config) (col : Collab) (n : ℕ) :
    (runEpochs cfg col n).best_snapshots =
      (List.range n).filter
        (fun e => evalCond e && decide (col.evalLoss (e + 1) < bestBefore col e)) := by
  induction n with
  | zero => rfl
  | succ n ih =>
    rw [runEpochs_succ, trainStep_eq, List.range_succ, List.filter_append]
    by_cases h : evalCond n
    · by_cases hl : col.evalLoss (n + 1) < (runEpochs cfg col n).best_loss
      · rw [runEpochs_best_loss] at hl
        simp [h, hl, ih, runEpochs_best_loss]
      · rw [runEpochs_best_loss] at hl
        simp [h, hl, ih, runEpochs_best_loss]
    · simp [h, ih]

lemma runEpochs_res_isSome (cfg : Config) (col : Collab) (n : ℕ) (h : n ≠ 0) :
    (runEpochs cfg col n).res.isSome = true := by
  induction n with
  | zero => exact absurd rfl h
  | succ n ih =>
    rw [runEpochs_succ, trainStep_eq]
    by_cases hn : evalCond n
    · simp [hn]
    · have hn0 : n ≠ 0 := by
        intro h0
        subst h0
        exact hn (by decide)
      simp [hn, ih hn0]

lemma runEpochs_logs_length (cfg : Config) (col : Collab) (n : ℕ) :
    (runEpochs cfg col n).test_loss_logs.length = n := by
  induction n with
  | zero => rfl
  | succ n ih => rw [runEpochs_succ, trainStep_eq]; simp [ih]

lemma runEpochs_logs_isSome (cfg : Config) (col : Collab) (n : ℕ) :
    ∀ o ∈ (runEpochs cfg col n).test_loss_logs, o.isSome = true := by
  induction n with
  | zero => intro o ho; simp [runEpochs, initState] at ho
  | succ n ih =>
    rw [runEpochs_succ, trainStep_eq]
    intro o ho
    simp only [List.mem_append, List.mem_singleton] at ho
    rcases ho with ho | ho
    · exact ih o ho
    · subst ho
      by_cases hn : evalCond n
      · simp [hn]
      · have hn0 : n ≠ 0 := by
          intro h0
          subst h0
          exact hn (by decide)
        simp [hn, runEpochs_res_isSome cfg col n hn0]

lemma trainRun_fields (cfg : Config) (col : Collab) :
    (trainRun cfg col).eval_calls = (runEpochs cfg col cfg.epoch).eval_calls ∧
    (trainRun cfg col).best_snapshots = (runEpochs cfg col cfg.epoch).best_snapshots ∧
    (trainRun cfg col).scheduler_steps = (runEpochs cfg col cfg.epoch).scheduler_steps ∧
    (trainRun cfg col).epoch_snapshots = (runEpochs cfg col cfg.epoch).epoch_snapshots ∧
    (trainRun cfg col).loss_hist = (runEpochs cfg col cfg.epoch).loss_hist ∧
    (trainRun cfg col).per_epoch_time = (runEpochs cfg col cfg.epoch).per_epoch_time ∧
    (trainRun cfg col).test_loss_logs = (runEpochs cfg col cfg.epoch).test_loss_logs ∧
    (trainRun cfg col).total_time = (runEpochs cfg col cfg.epoch).total_time ++ [col.totalTime] :=
  ⟨rfl, rfl, rfl, rfl, rfl, rfl, rfl, rfl⟩

lemma lt_foldl_min_iff (a b : ℚ) (l : List ℚ) :
    a < l.foldl min b ↔ a < b ∧ ∀ x ∈ l, a < x := by
  induction l generalizing b with
  | nil => simp
  | cons x l ih =>
    rw [List.foldl_cons, ih, lt_min_iff]
    simp only [List.mem_cons]
    constructor
    · rintro ⟨⟨h1, h2⟩, h3⟩
      refine ⟨h1, ?_⟩
      rintro y (rfl | hy)
      · exact h2
      · exact h3 y hy
    · rintro ⟨h1, h2⟩
      exact ⟨⟨h1, h2 x (Or.inl rfl)⟩, fun y hy => h2 y (Or.inr hy)⟩

lemma lt_bestBefore_iff (col : Collab) (a : ℚ) (n : ℕ) :
    a < bestBefore col n ↔
      a < 1000000000 ∧ ∀ e, e < n → evalCond e = true → a < col.evalLoss (e + 1) := by
  unfold bestBefore
  rw [lt_foldl_min_iff]
  constructor
  · rintro ⟨h1, h2⟩
    refine ⟨h1, fun e he hc => h2 _ ?_⟩
    exact List.mem_map_of_mem _ (List.mem_filter.mpr ⟨List.mem_range.mpr he, hc⟩)
  · rintro ⟨h1, h2⟩
    refine ⟨h1, fun x hx => ?_⟩
    rcases List.mem_map.mp hx with ⟨e, he, rfl⟩
    rcases List.mem_filter.mp he with ⟨her, hec⟩
    exact h2 e (List.mem_range.mp her) hec


/-- The evaluation guard of line 55, as a proposition. -/
lemma evalCond_iff (e : ℕ) : evalCond e = true ↔ ((e + 1) % 10 = 0 ∨ e = 0) := by
  simp [evalCond]

/-- Claim C1: the claim says the mean loss evaluate returns is computed
over batches drawn from the test loader.  The code instead accumulates
the loss over self.train_loader (line 106) in every invocation: the
batch source is always the train loader, and on concrete providers with
differing train and test losses the returned mean equals the train mean
(2), not the test mean (5).  Since the result is logged under the Test
Loss scalar (line 70) and the spec requires held-out data, this is a
defect of the code, not of the claim. -/
theorem C1_evaluate_loss_over_train_loader :
    (∀ (cfg : Config) (env : DataEnv) (m : ModelEnv) (g : Bool) (t : ℕ),
      (evaluate cfg env m g t).lossBatches = env.trainBatches) ∧
    (evaluate cfgT envW mW true 1).result = some (npMean (envW.trainBatches.map mW.batchLoss)) ∧
    (evaluate cfgT envW mW true 1).result = some 2 ∧
    npMean (envW.testBatches.map mW.batchLoss) = 5 ∧
    envW.trainBatches ≠ envW.testBatches := by
  refine ⟨?_, rfl, ?_, ?_, by decide⟩
  · intro cfg env m g t
    unfold evaluate
    split_ifs <;> rfl
  · norm_num [evaluate, envW, mW, numel, npMean]
  · norm_num [npMean, envW, mW]

/-- Claim C2, counterexample: in a concrete two-epoch run, evaluation
happens only at epoch 0 (tag 1), yet the Test Loss log read of line 70
succeeds on both epochs, returning the value bound at epoch 0; the read
never finds res unbound, contrary to the claim that it fails on epochs
without an evaluation and on the epoch-0 pathway. -/
theorem C2_counterexample :
    (trainRun cfgT colT).eval_calls = [1] ∧
    (trainRun cfgT colT).test_loss_logs = [some 7, some 7] := by
  decide

/-- Claim C2, amended: the Test Loss log does read res outside the
evaluation guard on every epoch, but the read never fails: because the
guard of line 55 always fires at epoch 0, res is bound from the first
iteration on, so every per-epoch log reads a defined (possibly stale)
value. -/
theorem C2_test_loss_log_always_defined (cfg : Config) (col : Collab)
    (_hs : 0 < cfg.scheduler_interval) (_hp : 0 < cfg.snapshot_interval) :
    (trainRun cfg col).test_loss_logs.length = cfg.epoch ∧
    ∀ o ∈ (trainRun cfg col).test_loss_logs, o.isSome = true := by
  constructor
  · show (runEpochs cfg col cfg.epoch).test_loss_logs.length = cfg.epoch
    exact runEpochs_logs_length cfg col cfg.epoch
  · show ∀ o ∈ (runEpochs cfg col cfg.epoch).test_loss_logs, o.isSome = true
    exact runEpochs_logs_isSome cfg col cfg.epoch

/-- Witness for the amended claim C2, at a concrete two-epoch run. -/
theorem C2_witness :
    0 < cfgT.scheduler_interval ∧ 0 < cfgT.snapshot_interval ∧
    ((trainRun cfgT colT).test_loss_logs.length = cfgT.epoch ∧
     ∀ o ∈ (trainRun cfgT colT).test_loss_logs, o.isSome = true) :=
  ⟨by decide, by decide, C2_test_loss_log_always_defined cfgT colT (by decide) (by decide)⟩

/-- Claim C3, counterexample: with an evaluation loss equal to the
initial sentinel 1000000000, the first (and only) evaluation of a
one-epoch run writes no best checkpoint, although its loss is vacuously
lower than every previous evaluation loss; the claim that the very
first evaluation always writes a best checkpoint is false. -/
theorem C3_counterexample :
    (trainRun cfgC colC).eval_calls = [1] ∧
    (trainRun cfgC colC).best_snapshots = [] := by
  decide

/-- Claim C3, amended: a best checkpoint is written at epoch e exactly
when an evaluation runs at e and its loss is strictly lower than the
initial sentinel 1000000000 and strictly lower than every evaluation
loss of earlier epochs. -/
theorem C3_best_snapshot_iff (cfg : Config) (col : Collab)
    (_hs : 0 < cfg.scheduler_interval) (_hp : 0 < cfg.snapshot_interval) (e : ℕ) :
    e ∈ (trainRun cfg col).best_snapshots ↔
      e < cfg.epoch ∧ evalCond e = true ∧ col.evalLoss (e + 1) < 1000000000 ∧
        ∀ j, j < e → evalCond j = true → col.evalLoss (e + 1) < col.evalLoss (j + 1) := by
  show e ∈ (runEpochs cfg col cfg.epoch).best_snapshots ↔ _
  rw [runEpochs_best_snapshots, List.mem_filter, List.mem_range, Bool.and_eq_true,
    decide_eq_true_eq, lt_bestBefore_iff]

/-- Witness for the amended claim C3, at epoch 0 of a concrete run. -/
theorem C3_witness :
    0 < cfgT.scheduler_interval ∧ 0 < cfgT.snapshot_interval ∧
    (0 ∈ (trainRun cfgT colT).best_snapshots ↔
      0 < cfgT.epoch ∧ evalCond 0 = true ∧ colT.evalLoss (0 + 1) < 1000000000 ∧
        ∀ j, j < 0 → evalCond j = true → colT.evalLoss (0 + 1) < colT.evalLoss (j + 1)) :=
  ⟨by decide, by decide, C3_best_snapshot_iff cfgT colT (by decide) (by decide) 0⟩

/-- Claim C4, counterexample: called with gradient tracking enabled at
the call site (as train does), evaluate performs all three of its model
invocations with gradient tracking still enabled; the claim that every
forward pass inside evaluate runs with gradient tracking disabled is
false. -/
theorem C4_counterexample :
    (evaluate cfgT envW mW true 1).gradModes = [true, true, true] ∧
    ¬ ∀ b ∈ (evaluate cfgT envW mW true 1).gradModes, b = false :=
  ⟨by decide, by decide⟩

/-- Claim C4, amended: every forward pass and loss computation inside
evaluate runs in the gradient-tracking mode ambient at the call site;
evaluate never disables gradient tracking (there is no no_grad context;
model.eval only switches layer behavior). -/
theorem C4_forwards_use_ambient_grad_mode (cfg : Config) (env : DataEnv) (m : ModelEnv)
    (g : Bool) (t : ℕ) :
    (evaluate cfg env m g t).gradModes.all (fun b => b == g) = true := by
  unfold evaluate
  split_ifs <;> simp [List.all_eq_true]

/-- Claim C5: in a run over N epochs, evaluate is invoked in the loop
iteration of zero-based index e exactly when e = 0 or e + 1 is a
multiple of 10, i.e. at one-based epochs 1, 10, 20, 30, and so on. -/
theorem C5_evaluation_epochs (cfg : Config) (col : Collab)
    (_hs : 0 < cfg.scheduler_interval) (_hp : 0 < cfg.snapshot_interval)
    (e : ℕ) (he : e < cfg.epoch) :
    (e + 1) ∈ (trainRun cfg col).eval_calls ↔ (e = 0 ∨ (e + 1) % 10 = 0) := by
  show (e + 1) ∈ (runEpochs cfg col cfg.epoch).eval_calls ↔ _
  rw [runEpochs_eval_calls, List.mem_map]
  constructor
  · rintro ⟨a, ha, hae⟩
    have : a = e := by omega
    subst this
    rcases List.mem_filter.mp ha with ⟨-, hc⟩
    rcases (evalCond_iff a).mp hc with h | h
    · exact Or.inr h
    · exact Or.inl h
  · intro h
    refine ⟨e, List.mem_filter.mpr ⟨List.mem_range.mpr he, (evalCond_iff e).mpr ?_⟩, rfl⟩
    tauto

/-- Witness for claim C5 at zero-based epoch 1 of a concrete run. -/
theorem C5_witness :
    0 < cfgT.scheduler_interval ∧ 0 < cfgT.snapshot_interval ∧ 1 < cfgT.epoch ∧
    ((1 + 1) ∈ (trainRun cfgT colT).eval_calls ↔ (1 = 0 ∨ (1 + 1) % 10 = 0)) :=
  ⟨by decide, by decide, by decide,
    C5_evaluation_epochs cfgT colT (by decide) (by decide) 1 (by decide)⟩

/-- Claim C6, counterexample: a ten-epoch run evaluates exactly twice,
at tags 1 and 10, and the invocation with tag 10, which is the second
evaluation and not the tenth, writes test_0.png; the claim that
test_0.png is written exactly on the tenth evaluation is false. -/
theorem C6_counterexample :
    (trainRun cfgB colT).eval_calls = [1, 10] ∧
    cfgB.result_dir ++ "test_0.png" ∈ (evaluate cfgB envW mW true 10).files :=
  ⟨by decide, by decide⟩

/-- Claim C6, amended: a completing invocation of evaluate at epoch tag
t writes exactly test_t.png, then test_0.png exactly when t = 10, then
train_t.png and train_t_origin.png, all under result_dir; and in every
run of at least ten epochs the tag-10 invocation is the second
evaluation of the run. -/
theorem C6_written_files (cfg : Config) (env : DataEnv) (m : ModelEnv) (g : Bool) (t : ℕ)
    (cfg2 : Config) (col2 : Collab)
    (hok : (evaluate cfg env m g t).result.isSome = true)
    (_hs : 0 < cfg2.scheduler_interval) (_hp : 0 < cfg2.snapshot_interval)
    (hn : 10 ≤ cfg2.epoch) :
    (evaluate cfg env m g t).files =
      [cfg.result_dir ++ "test_" ++ toString t ++ ".png"]
        ++ (if t = 10 then [cfg.result_dir ++ "test_0.png"] else [])
        ++ [cfg.result_dir ++ "train_" ++ toString t ++ ".png",
            cfg.result_dir ++ "train_" ++ toString t ++ "_origin.png"] ∧
    (trainRun cfg2 col2).eval_calls[1]? = some 10 := by
  constructor
  · unfold evaluate at hok ⊢
    split_ifs at hok ⊢ <;> simp_all
  · show (runEpochs cfg2 col2 cfg2.epoch).eval_calls[1]? = some 10
    rw [runEpochs_eval_calls]
    have hsplit : cfg2.epoch = 10 + (cfg2.epoch - 10) := by omega
    rw [hsplit, List.range_add 10 (cfg2.epoch - 10), List.filter_append _ _, List.map_append]
    have hfilt : (List.range 10).filter evalCond = [0, 9] := by decide
    rw [hfilt]
    have hlt : (1 : ℕ) < (([0, 9].map (fun e => e + 1))).length := by decide
    rw [List.getElem?_append_left hlt]
    rfl

/-- Witness for the amended claim C6 at tag 10 on concrete inputs. -/
theorem C6_witness :
    (evaluate cfgB envW mW true 10).result.isSome = true ∧
    0 < cfgB.scheduler_interval ∧ 0 < cfgB.snapshot_interval ∧ 10 ≤ cfgB.epoch ∧
    ((evaluate cfgB envW mW true 10).files =
        [cfgB.result_dir ++ "test_" ++ toString 10 ++ ".png"]
          ++ (if 10 = 10 then [cfgB.result_dir ++ "test_0.png"] else [])
          ++ [cfgB.result_dir ++ "train_" ++ toString 10 ++ ".png",
              cfgB.result_dir ++ "train_" ++ toString 10 ++ "_origin.png"] ∧
     (trainRun cfgB colT).eval_calls[1]? = some 10) :=
  ⟨by decide, by decide, by decide, by decide,
    C6_written_files cfgB envW mW true 10 cfgB colT (by decide) (by decide) (by decide)
      (by decide)⟩

/-- Claim C7: an unconditional epoch-numbered checkpoint is written in
the loop iteration of zero-based index e exactly when e + 1 is a
multiple of the configured snapshot interval. -/
theorem C7_snapshot_epochs (cfg : Config) (col : Collab)
    (_hs : 0 < cfg.scheduler_interval) (_hp : 0 < cfg.snapshot_interval)
    (e : ℕ) (he : e < cfg.epoch) :
    (e + 1) ∈ (trainRun cfg col).epoch_snapshots ↔ (e + 1) % cfg.snapshot_interval = 0 := by
  show (e + 1) ∈ (runEpochs cfg col cfg.epoch).epoch_snapshots ↔ _
  rw [runEpochs_epoch_snapshots, List.mem_map]
  constructor
  · rintro ⟨a, ha, hae⟩
    have : a = e := by omega
    subst this
    rcases List.mem_filter.mp ha with ⟨-, hc⟩
    simpa using hc
  · intro h
    exact ⟨e, List.mem_filter.mpr ⟨List.mem_range.mpr he, by simpa using h⟩, rfl⟩

/-- Witness for claim C7 at zero-based epoch 0 of a concrete run with
snapshot interval 1. -/
theorem C7_witness :
    0 < cfgT.scheduler_interval ∧ 0 < cfgT.snapshot_interval ∧ 0 < cfgT.epoch ∧
    ((0 + 1) ∈ (trainRun cfgT colT).epoch_snapshots ↔ (0 + 1) % cfgT.snapshot_interval = 0) :=
  ⟨by decide, by decide, by decide,
    C7_snapshot_epochs cfgT colT (by decide) (by decide) 0 (by decide)⟩

/-- Claim C8: the learning-rate scheduler is stepped in the loop
iteration of zero-based index e exactly when e is a multiple of the
configured scheduler interval, hence at epoch 0 and every interval
thereafter. -/
theorem C8_scheduler_step_epochs (cfg : Config) (col : Collab)
    (_hs : 0 < cfg.scheduler_interval) (_hp : 0 < cfg.snapshot_interval)
    (e : ℕ) (he : e < cfg.epoch) :
    e ∈ (trainRun cfg col).scheduler_steps ↔ e % cfg.scheduler_interval = 0 := by
  show e ∈ (runEpochs cfg col cfg.epoch).scheduler_steps ↔ _
  rw [runEpochs_scheduler_steps, List.mem_filter, List.mem_range]
  simp [he]

/-- Witness for claim C8 at zero-based epoch 0 of a concrete run. -/
theorem C8_witness :
    0 < cfgT.scheduler_interval ∧ 0 < cfgT.snapshot_interval ∧ 0 < cfgT.epoch ∧
    (0 ∈ (trainRun cfgT colT).scheduler_steps ↔ 0 % cfgT.scheduler_interval = 0) :=
  ⟨by decide, by decide, by decide,
    C8_scheduler_step_epochs cfgT colT (by decide) (by decide) 0 (by decide)⟩

/-- Claim C9: a completed run over N epochs leaves exactly N entries in
the loss history, exactly N entries in the per-epoch-time history and
exactly one entry in the total-time list, and each of the two per-epoch
lists grows by exactly one entry per iteration. -/
theorem C9_history_lengths (cfg : Config) (col : Collab) (n : ℕ)
    (_hs : 0 < cfg.scheduler_interval) (_hp : 0 < cfg.snapshot_interval) :
    (trainRun cfg col).loss_hist.length = cfg.epoch ∧
    (trainRun cfg col).per_epoch_time.length = cfg.epoch ∧
    (trainRun cfg col).total_time.length = 1 ∧
    (runEpochs cfg col (n + 1)).loss_hist.length =
      (runEpochs cfg col n).loss_hist.length + 1 ∧
    (runEpochs cfg col (n + 1)).per_epoch_time.length =
      (runEpochs cfg col n).per_epoch_time.length + 1 := by
  refine ⟨?_, ?_, ?_, ?_, ?_⟩
  · show (runEpochs cfg col cfg.epoch).loss_hist.length = cfg.epoch
    rw [runEpochs_loss_hist]
    simp
  · show (runEpochs cfg col cfg.epoch).per_epoch_time.length = cfg.epoch
    rw [runEpochs_per_epoch_time]
    simp
  · show ((runEpochs cfg col cfg.epoch).total_time ++ [col.totalTime]).length = 1
    rw [runEpochs_total_time]
    rfl
  · rw [runEpochs_loss_hist, runEpochs_loss_hist]
    simp
  · rw [runEpochs_per_epoch_time, runEpochs_per_epoch_time]
    simp

/-- Witness for claim C9 on a concrete two-epoch run. -/
theorem C9_witness :
    0 < cfgT.scheduler_interval ∧ 0 < cfgT.snapshot_interval ∧
    ((trainRun cfgT colT).loss_hist.length = cfgT.epoch ∧
     (trainRun cfgT colT).per_epoch_time.length = cfgT.epoch ∧
     (trainRun cfgT colT).total_time.length = 1 ∧
     (runEpochs cfgT colT (0 + 1)).loss_hist.length =
       (runEpochs cfgT colT 0).loss_hist.length + 1 ∧
     (runEpochs cfgT colT (0 + 1)).per_epoch_time.length =
       (runEpochs cfgT colT 0).per_epoch_time.length + 1) :=
  ⟨by decide, by decide, C9_history_lengths cfgT colT 0 (by decide) (by decide)⟩

/-- Claim C10: evaluate reshapes the first test and train samples with
the hard-coded shape (1, 2048, 3) of lines 117 and 127, so on
three-dimensional samples it completes exactly when both samples hold
2048 points, and its outcome is unchanged by the configured num_points. -/
theorem C10_view_hard_codes_2048 (cfg : Config) (env : DataEnv) (m : ModelEnv)
    (g : Bool) (t np : ℕ)
    (hdt : env.testSample0.dim = 3) (hdr : env.trainSample0.dim = 3) :
    ((evaluate cfg env m g t).result.isSome = true ↔
      (env.testSample0.pts = 2048 ∧ env.trainSample0.pts = 2048)) ∧
    evaluate { cfg with num_points := np } env m g t = evaluate cfg env m g t := by
  constructor
  · have e1 : numel env.testSample0 = env.testSample0.pts * 3 := by rw [numel, hdt]
    have e2 : numel env.trainSample0 = env.trainSample0.pts * 3 := by rw [numel, hdr]
    unfold evaluate
    rw [e1, e2]
    split_ifs with h1 h2 <;> simp <;> omega
  · rfl

/-- Witness for claim C10 on samples of 2048 three-dimensional points. -/
theorem C10_witness :
    envW.testSample0.dim = 3 ∧ envW.trainSample0.dim = 3 ∧
    (((evaluate cfgT envW mW true 1).result.isSome = true ↔
        (envW.testSample0.pts = 2048 ∧ envW.trainSample0.pts = 2048)) ∧
     evaluate { cfgT with num_points := 7 } envW mW true 1 = evaluate cfgT envW mW true 1) :=
  ⟨rfl, rfl, C10_view_hard_codes_2048 cfgT envW mW true 1 7 rfl rfl⟩

end FoldingNet
